import Mathlib

/-!
Shallow embedding of `mlflow_efficiency_audit.py`, an audit script that
walks every experiment and run of an MLflow tracking server, fetches GPU
memory-usage metric histories, builds one denormalized record per run and
writes the records to a spreadsheet.

Modelling choices:
* Machine floats never take part in any arithmetic in the script except the
  duration division; metric values are only interpolated into strings, so a
  metric sample is embedded as `(Int × String)` — the timestamp and the
  decimal rendering of the value.  The duration, a true division of two
  integers by 1000, is embedded as a rational number.
* The external MLflow client is a record of functions; fallible calls
  return `Except String`.  Python exceptions are `Except.error`, and a
  function that lets an exception escape has an `Except` result type.
* `datetime.fromtimestamp(...).strftime(...)` is timezone dependent; it is
  embedded as an abstract rendering function `render_date` carried by the
  client record.  `human_readable_date` keeps the `None` check of the
  source.
* Python dicts preserve insertion order; they are embedded as association
  lists, with `updateAssoc` giving the replace-or-append semantics of
  `d[k] = v`.
-/

namespace MlflowAudit

/-- A spreadsheet cell: a string, a rational number (the duration column),
Python `None`, or the NaN a pandas DataFrame puts into missing cells. -/
inductive CellValue where
  | s (v : String) : CellValue
  | num (q : Rat) : CellValue
  | null : CellValue
  | nan : CellValue
deriving DecidableEq, Repr

/-- One denormalized output row: column name to cell value, in insertion
order. -/
abbrev RunRecord := List (String × CellValue)

/-- First-match association-list lookup (sufficient for Python dicts here
because all dicts are built with replace-or-append updates, so keys are
unique). -/
def assocLookup {α : Type} : List (String × α) → String → Option α
  | [], _ => none
  | p :: ps, k => if p.1 = k then some p.2 else assocLookup ps k

/-- Python `d.get(k, default)`. -/
def pyGet {α : Type} (l : List (String × α)) (k : String) (d : α) : α :=
  match assocLookup l k with
  | some v => v
  | none => d

/-- Python `d[k] = v` on an association list: replace the existing binding
or append a new one. -/
def updateAssoc {α : Type} (d : List (String × α)) (kv : String × α) :
    List (String × α) :=
  if d.any (fun p => p.1 = kv.1) then
    d.map (fun p => if p.1 = kv.1 then (p.1, kv.2) else p)
  else d ++ [kv]

/-- Python `d.update(e)`: apply `d[k] = v` for each pair of `e` in order. -/
def dictUpdate {α : Type} (d e : List (String × α)) : List (String × α) :=
  e.foldl updateAssoc d

/-- Python `sep.join(parts)`. -/
def pyJoin (sep : String) : List String → String
  | [] => ""
  | [part] => part
  | part :: parts => part ++ sep ++ pyJoin sep parts

/-- Decimal digit rendering, fuel-driven so that it reduces in the kernel.
Correct whenever `n < fuel`. -/
def natReprAux : Nat → Nat → List Char
  | 0, _ => []
  | fuel + 1, n =>
    if n < 10 then [Nat.digitChar n]
    else natReprAux fuel (n / 10) ++ [Nat.digitChar (n % 10)]

/-- Decimal rendering of a natural number, as Python `f"{n}"` produces. -/
def natRepr (n : Nat) : String := String.mk (natReprAux (n + 1) n)

/-- Decimal rendering of an integer, as Python `f"{i}"` produces. -/
def intRepr (i : Int) : String :=
  if i < 0 then "-" ++ natRepr i.natAbs else natRepr i.natAbs

/-- A run as returned by `client.search_runs`: the `run.info` fields and
the `run.data.tags` map used by the script.  `end_time` is `None` while
the run is still going. -/
structure Run where
  run_id : String
  run_name : String
  status : String
  start_time : Int
  end_time : Option Int
  tags : List (String × String)

/-- An experiment as returned by `mlflow.search_experiments()`. -/
structure Experiment where
  experiment_id : String
  name : String

/-- One entry of `model.latest_versions`. -/
structure RegisteredModelVersion where
  version : String
  current_stage : String
  source : String
  tags : List (String × String)
  creation_timestamp : Option Int

/-- A registered model as returned by `client.search_registered_models()`. -/
structure RegisteredModel where
  name : String
  latest_versions : List RegisteredModelVersion

/-- The external MLflow client plus the ambient date formatter.  Fallible
calls return `Except String`; an `Except.error` is a raised Python
exception. -/
structure Client where
  experiments : List Experiment
  search_runs : String → List Run
  get_metric_history : String → String → Except String (List (Int × String))
  list_artifacts : String → Except String (List String)
  search_registered_models : Except String (List RegisteredModel)
  render_date : Int → String

/-- Line 21: fetch the full history of one metric for one run; every
exception is caught and mapped to the empty list, so the result type is
pure — the function cannot raise to its caller. -/
def fetch_full_metric_history (c : Client) (run_id metric_name : String) :
    List (Int × String) :=
  match c.get_metric_history run_id metric_name with
  | Except.ok history => history
  | Except.error _ => []

/-- Line 50: one serialized sample, `f"Timestamp: {ts}, Value: {val}"`. -/
def sampleEntry (ts : Int) (val : String) : String :=
  "Timestamp: " ++ intRepr ts ++ ", Value: " ++ val

/-- Lines 49-51: the audit-trail string for one metric history,
`"; ".join(...)`. -/
def history_str (history : List (Int × String)) : String :=
  pyJoin "; " (history.map (fun p => sampleEntry p.1 p.2))

/-- Line 45: the probed metric name for GPU slot `i`. -/
def gpuMetricName (i : Nat) : String :=
  "system/gpu_" ++ natRepr i ++ "_memory_usage_percentage"

/-- Line 52: the dynamic column name for GPU slot `i`. -/
def gpuHistoryKey (i : Nat) : String :=
  "GPU_" ++ natRepr i ++ "_History"

/-- One iteration of the loop on lines 44-52: fetch slot `i`, and if the
history is non-empty store its serialized form under the slot key. -/
def gpuStep (c : Client) (run_id : String)
    (acc : List (String × CellValue)) (i : Nat) : List (String × CellValue) :=
  if fetch_full_metric_history c run_id (gpuMetricName i) = [] then acc
  else updateAssoc acc (gpuHistoryKey i,
    CellValue.s (history_str (fetch_full_metric_history c run_id (gpuMetricName i))))

/-- Lines 42-52: the `gpu_metric_histories` dict after probing slots
0..11. -/
def gpu_metric_histories (c : Client) (run_id : String) :
    List (String × CellValue) :=
  (List.range 12).foldl (gpuStep c run_id) []

/-- The entry slot `i` contributes to the GPU dict, if any (closed form of
one `gpuStep`). -/
def gpuItem (c : Client) (run_id : String) (i : Nat) :
    Option (String × CellValue) :=
  if fetch_full_metric_history c run_id (gpuMetricName i) = [] then none
  else some (gpuHistoryKey i,
    CellValue.s (history_str (fetch_full_metric_history c run_id (gpuMetricName i))))

/-- Lines 97-103: `None` stays `None`, any other timestamp — including 0 —
is rendered through the date formatter. -/
def human_readable_date (render : Int → String) : Option Int → Option String
  | none => none
  | some t => some (render t)

/-- A rendered-or-absent value as a cell: Python `None` becomes a null
cell. -/
def optCell : Option String → CellValue
  | none => CellValue.null
  | some v => CellValue.s v

/-- Line 63: `(end - start) / 1000 if run.info.end_time else None` — note
the truthiness test, which treats `end_time == 0` like `None`. -/
def durationCell (run : Run) : CellValue :=
  match run.end_time with
  | none => CellValue.null
  | some e =>
    if e = 0 then CellValue.null
    else CellValue.num (((e - run.start_time : Int) : Rat) / 1000)

/-- The dict literal of lines 54-66, given the already-fetched artifact
paths. -/
def fixedRecord (c : Client) (experiment : Experiment) (run : Run)
    (artifacts : List String) : RunRecord :=
  [("Experiment Name", CellValue.s experiment.name),
   ("Run ID", CellValue.s run.run_id),
   ("Run Name", CellValue.s run.run_name),
   ("User", CellValue.s (pyGet run.tags "mlflow.user" "Unknown")),
   ("Source", CellValue.s (pyGet run.tags "mlflow.source.name" "Unknown")),
   ("Status", CellValue.s run.status),
   ("Start Time", optCell (human_readable_date c.render_date (some run.start_time))),
   ("End Time", optCell (human_readable_date c.render_date run.end_time)),
   ("Duration (s)", durationCell run),
   ("Logged Models", CellValue.s (pyJoin ", " artifacts)),
   ("Registered Models", CellValue.s (pyGet run.tags "mlflow.log-model.history" "None"))]

/-- Lines 54-66: the fixed part of the run record.  `client.list_artifacts`
is called outside any `try`, so its exception escapes — hence the `Except`
result. -/
def build_run_data (c : Client) (experiment : Experiment) (run : Run) :
    Except String RunRecord :=
  match c.list_artifacts run.run_id with
  | Except.error e => Except.error e
  | Except.ok artifacts => Except.ok (fixedRecord c experiment run artifacts)

/-- Lines 42-68: one full run record — the fixed columns updated with the
GPU history columns (`run_data.update(gpu_metric_histories)`). -/
def build_run_record (c : Client) (experiment : Experiment) (run : Run) :
    Except String RunRecord :=
  match build_run_data c experiment run with
  | Except.error e => Except.error e
  | Except.ok run_data =>
    Except.ok (dictUpdate run_data (gpu_metric_histories c run.run_id))

/-- The inner loop of lines 41-69 over the runs of one experiment; the
first escaping exception aborts everything. -/
def runsLoop (c : Client) (experiment : Experiment) :
    List Run → Except String (List RunRecord)
  | [] => Except.ok []
  | r :: rs =>
    match build_run_record c experiment r with
    | Except.error e => Except.error e
    | Except.ok rec =>
      match runsLoop c experiment rs with
      | Except.error e => Except.error e
      | Except.ok recs => Except.ok (rec :: recs)

/-- The outer loop of lines 38-69 over all experiments. -/
def expsLoop (c : Client) : List Experiment → Except String (List RunRecord)
  | [] => Except.ok []
  | e :: es =>
    match runsLoop c e (c.search_runs e.experiment_id) with
    | Except.error err => Except.error err
    | Except.ok recs =>
      match expsLoop c es with
      | Except.error err => Except.error err
      | Except.ok recs2 => Except.ok (recs ++ recs2)

/-- Lines 31-71: sweep every experiment and run, producing the list of
rows handed to `pd.DataFrame` — or the exception that aborted the sweep. -/
def fetch_all_experiment_metrics (c : Client) : Except String (List RunRecord) :=
  expsLoop c c.experiments

/-- Lines 73-95: registered-model rows; the whole body is inside `try`,
so any exception is absorbed into an empty table. -/
def fetch_registered_models (c : Client) : List RunRecord :=
  match c.search_registered_models with
  | Except.error _ => []
  | Except.ok models =>
    models.flatMap (fun m => m.latest_versions.map (fun v =>
      [("Model Name", CellValue.s m.name),
       ("Version", CellValue.s v.version),
       ("Stage", CellValue.s v.current_stage),
       ("Source", CellValue.s v.source),
       ("Git Commit", CellValue.s (pyGet v.tags "mlflow.source.git.commit" "No")),
       ("Creation Time", optCell (human_readable_date c.render_date v.creation_timestamp))]))

/-- Keep-first deduplication, as pandas unions the dict keys of its input
rows in order of first appearance. -/
def dedupFirstAux (seen : List String) : List String → List String
  | [] => []
  | x :: xs =>
    if x ∈ seen then dedupFirstAux seen xs
    else x :: dedupFirstAux (x :: seen) xs

/-- The column list of `pd.DataFrame(records)`: union of the records' keys
in first-appearance order. -/
def dfColumns (records : List RunRecord) : List String :=
  dedupFirstAux [] (records.flatMap (fun r => r.map Prod.fst))

/-- One DataFrame row under a fixed column list; a missing cell is NaN. -/
def dfRow (cols : List String) (rec : RunRecord) : List CellValue :=
  cols.map (fun k => (assocLookup rec k).getD CellValue.nan)

/-- One worksheet: title, header row, data rows. -/
structure Sheet where
  title : String
  header : List String
  rows : List (List CellValue)
deriving DecidableEq, Repr

/-- The workbook written by `wb.save`. -/
structure Workbook where
  sheets : List Sheet
deriving DecidableEq, Repr

/-- Lines 105-134: build the workbook — always the "Experiment Metrics"
sheet, plus a "Registered Models" sheet when that table is non-empty. -/
def generate_excel (all_experiment_data registered_models : List RunRecord) :
    Workbook :=
  if registered_models = [] then
    Workbook.mk [Sheet.mk "Experiment Metrics" (dfColumns all_experiment_data)
      (all_experiment_data.map (dfRow (dfColumns all_experiment_data)))]
  else
    Workbook.mk [Sheet.mk "Experiment Metrics" (dfColumns all_experiment_data)
      (all_experiment_data.map (dfRow (dfColumns all_experiment_data))),
      Sheet.mk "Registered Models" (dfColumns registered_models)
      (registered_models.map (dfRow (dfColumns registered_models)))]

/-- What the process as a whole does. -/
inductive Outcome where
  | configError : Outcome
  | crashed (msg : String) : Outcome
  | noData : Outcome
  | saved (file : String) (wb : Workbook) : Outcome
deriving DecidableEq, Repr

/-- `os.getenv` over the ambient environment. -/
def getenv (env : List (String × String)) (k : String) : Option String :=
  assocLookup env k

/-- Lines 14-17 and 136-143: the module-level configuration check (note
`if not tracking_uri`: an unset or empty variable is fatal), then the
sweep, then either the "no data" report or the saved workbook.  An
exception escaping the sweep crashes the process before anything is
written. -/
def main (env : List (String × String)) (c : Client) : Outcome :=
  match getenv env "MLFLOW_TRACKING_URI" with
  | none => Outcome.configError
  | some uri =>
    if uri = "" then Outcome.configError
    else
      match fetch_all_experiment_metrics c with
      | Except.error e => Outcome.crashed e
      | Except.ok experiment_data =>
        if experiment_data = [] then Outcome.noData
        else Outcome.saved "experiment_metrics_summary.xlsx"
          (generate_excel experiment_data (fetch_registered_models c))

/-- The fixed column names of every run record, in source order. -/
def fixedKeys : List String :=
  ["Experiment Name", "Run ID", "Run Name", "User", "Source", "Status",
   "Start Time", "End Time", "Duration (s)", "Logged Models", "Registered Models"]

/-!
Modelled from the spec: the repository serializes metric histories but has
no parser for the serialized form; the spec's round-trip property needs
one, so the inverse of the documented format — entries
`"Timestamp: T, Value: V"` joined by the fixed delimiter `"; "` — is
defined here.
-/

/-- Modelled from the spec: split a character list at every occurrence of
the delimiter `';'` followed by `' '`. -/
def splitSemi : List Char → List (List Char)
  | [] => [[]]
  | [c] => [[c]]
  | c :: d :: rest =>
    if c = ';' ∧ d = ' ' then [] :: splitSemi rest
    else
      match splitSemi (d :: rest) with
      | [] => [[c]]
      | t :: ts => (c :: t) :: ts

/-- Value of a decimal digit string. -/
def digitsToNat (ds : List Char) : Nat :=
  ds.foldl (fun a c => 10 * a + (c.toNat - 48)) 0

/-- Parse a leading run of decimal digits; fails if there is none. -/
def parseNatToken (cs : List Char) : Option (Nat × List Char) :=
  if (cs.takeWhile Char.isDigit).isEmpty then none
  else some (digitsToNat (cs.takeWhile Char.isDigit), cs.dropWhile Char.isDigit)

/-- Parse a leading optionally-signed decimal integer. -/
def parseIntToken (cs : List Char) : Option (Int × List Char) :=
  match cs with
  | [] => none
  | c :: rest =>
    if c = '-' then
      match parseNatToken rest with
      | some (n, r) => some (-(n : Int), r)
      | none => none
    else
      match parseNatToken cs with
      | some (n, r) => some ((n : Int), r)
      | none => none

/-- Modelled from the spec: parse one `"Timestamp: T, Value: V"` entry. -/
def parseEntry (cs : List Char) : Option (Int × String) :=
  if "Timestamp: ".data.isPrefixOf cs then
    match parseIntToken (cs.drop 11) with
    | some (ts, rest) =>
      if ", Value: ".data.isPrefixOf rest then some (ts, String.mk (rest.drop 9))
      else none
    | none => none
  else none

/-- Parse every entry, failing if any entry is malformed. -/
def parseEntries : List (List Char) → Option (List (Int × String))
  | [] => some []
  | e :: es =>
    match parseEntry e, parseEntries es with
    | some p, some ps => some (p :: ps)
    | _, _ => none

/-- Modelled from the spec: parse a full serialized metric history back
into its (timestamp, value) pairs; the empty string is the empty
history. -/
def parse_metric_series (s : String) : Option (List (Int × String)) :=
  if s.data.isEmpty then some []
  else parseEntries (splitSemi s.data)

/-- The character-level form of `"; ".join`, used to relate `pyJoin` and
`splitSemi`. -/
def sepJoin : List (List Char) → List Char
  | [] => []
  | [e] => e
  | e :: es => e ++ ';' :: ' ' :: sepJoin es

/-! ### Concrete test fixtures -/

/-- A fixed date renderer standing for the local-timezone `strftime`. -/
def exRender : Int → String := fun _ => "01/01/1970 00:00:00"

/-- An environment with the tracking endpoint configured. -/
def exEnv : List (String × String) :=
  [("MLFLOW_TRACKING_URI", "http://mlflow.internal:5000")]

/-- An ongoing run tagged with a user. -/
def exRunA : Run :=
  Run.mk "run-a" "training-a" "RUNNING" 1000 none [("mlflow.user", "alice")]

/-- A client with one experiment and one run whose GPU slot 0 carries the
samples 5.0 and 15.0; every other metric probe fails. -/
def exClientA : Client :=
  Client.mk [Experiment.mk "1" "exp-a"] (fun _ => [exRunA])
    (fun _ m => if m = gpuMetricName 0 then Except.ok [(0, "5.0"), (1, "15.0")]
      else Except.error "metric not found")
    (fun _ => Except.ok []) (Except.ok []) exRender

/-- An ongoing run carrying both a Conda-environment tag and a Docker
tag. -/
def exRunB : Run :=
  Run.mk "run-b" "training-b" "RUNNING" 2000 none
    [("mlflow.source.conda_env", "conda.yaml"), ("mlflow.docker.image", "pytorch:latest")]

/-- A client whose single run has no metrics but carries environment
tags. -/
def exClientB : Client :=
  Client.mk [Experiment.mk "2" "exp-b"] (fun _ => [exRunB])
    (fun _ _ => Except.error "metric not found")
    (fun _ => Except.ok []) (Except.ok []) exRender

/-- A client whose artifact store is unreachable: `list_artifacts` raises
for every run. -/
def exClientC : Client :=
  Client.mk [Experiment.mk "3" "exp-c"] (fun _ => [exRunA])
    (fun _ _ => Except.error "metric not found")
    (fun _ => Except.error "artifact store unreachable") (Except.ok []) exRender

/-- A finished run whose end timestamp is the epoch, i.e. exactly 0. -/
def exRunZ : Run :=
  Run.mk "run-z" "training-z" "FINISHED" 0 (some 0) []

/-- A client whose single run ended at epoch time 0. -/
def exClientZ : Client :=
  Client.mk [Experiment.mk "9" "exp-z"] (fun _ => [exRunZ])
    (fun _ _ => Except.error "metric not found")
    (fun _ => Except.ok []) (Except.ok []) exRender

/-- A client with no experiments at all. -/
def exClientEmpty : Client :=
  Client.mk [] (fun _ => [])
    (fun _ _ => Except.error "metric not found")
    (fun _ => Except.ok []) (Except.ok []) exRender

/-- A finished run with a nonzero end timestamp. -/
def exRunF : Run := Run.mk "run-f" "training-f" "FINISHED" 1000 (some 61000) []

/-- A client whose single run finished after one minute. -/
def exClientF : Client :=
  Client.mk [Experiment.mk "4" "exp-f"] (fun _ => [exRunF])
    (fun _ _ => Except.error "metric not found")
    (fun _ => Except.ok []) (Except.ok []) exRender

/-- The record the sweep builds for `exRunA` under `exClientA`. -/
def exRecA : RunRecord :=
  [("Experiment Name", CellValue.s "exp-a"),
   ("Run ID", CellValue.s "run-a"),
   ("Run Name", CellValue.s "training-a"),
   ("User", CellValue.s "alice"),
   ("Source", CellValue.s "Unknown"),
   ("Status", CellValue.s "RUNNING"),
   ("Start Time", CellValue.s "01/01/1970 00:00:00"),
   ("End Time", CellValue.null),
   ("Duration (s)", CellValue.null),
   ("Logged Models", CellValue.s ""),
   ("Registered Models", CellValue.s "None"),
   ("GPU_0_History", CellValue.s "Timestamp: 0, Value: 5.0; Timestamp: 1, Value: 15.0")]

/-- The record the sweep builds for `exRunB` under `exClientB`. -/
def exRecB : RunRecord :=
  [("Experiment Name", CellValue.s "exp-b"),
   ("Run ID", CellValue.s "run-b"),
   ("Run Name", CellValue.s "training-b"),
   ("User", CellValue.s "Unknown"),
   ("Source", CellValue.s "Unknown"),
   ("Status", CellValue.s "RUNNING"),
   ("Start Time", CellValue.s "01/01/1970 00:00:00"),
   ("End Time", CellValue.null),
   ("Duration (s)", CellValue.null),
   ("Logged Models", CellValue.s ""),
   ("Registered Models", CellValue.s "None")]

/-- The record the sweep builds for `exRunZ` under `exClientZ`: the End
Time column renders the epoch date while the Duration column is null. -/
def exRecZ : RunRecord :=
  [("Experiment Name", CellValue.s "exp-z"),
   ("Run ID", CellValue.s "run-z"),
   ("Run Name", CellValue.s "training-z"),
   ("User", CellValue.s "Unknown"),
   ("Source", CellValue.s "Unknown"),
   ("Status", CellValue.s "FINISHED"),
   ("Start Time", CellValue.s "01/01/1970 00:00:00"),
   ("End Time", CellValue.s "01/01/1970 00:00:00"),
   ("Duration (s)", CellValue.null),
   ("Logged Models", CellValue.s ""),
   ("Registered Models", CellValue.s "None")]

/-- The record the sweep builds for `exRunF` under `exClientF`. -/
def exRecF : RunRecord :=
  [("Experiment Name", CellValue.s "exp-f"),
   ("Run ID", CellValue.s "run-f"),
   ("Run Name", CellValue.s "training-f"),
   ("User", CellValue.s "Unknown"),
   ("Source", CellValue.s "Unknown"),
   ("Status", CellValue.s "FINISHED"),
   ("Start Time", CellValue.s "01/01/1970 00:00:00"),
   ("End Time", CellValue.s "01/01/1970 00:00:00"),
   ("Duration (s)", CellValue.num (((61000 - 1000 : Int) : Rat) / 1000)),
   ("Logged Models", CellValue.s ""),
   ("Registered Models", CellValue.s "None")]

/-! ### Association-list and GPU-loop lemmas -/

theorem updateAssoc_fresh {α : Type} (d : List (String × α)) (k : String) (v : α)
    (h : k ∉ d.map Prod.fst) : updateAssoc d (k, v) = d ++ [(k, v)] := by
  unfold updateAssoc
  have hany : d.any (fun p => p.1 = (k, v).1) = false := by
    simp only [List.any_eq_false, decide_eq_true_eq]
    intro p hp hpk
    exact h (hpk ▸ List.mem_map_of_mem Prod.fst hp)
  simp [hany]

theorem foldl_updateAssoc_eq_append {α : Type} (l : List (String × α)) :
    ∀ d : List (String × α),
      (∀ k ∈ l.map Prod.fst, k ∉ d.map Prod.fst) →
      (l.map Prod.fst).Nodup →
      l.foldl updateAssoc d = d ++ l := by
  induction l with
  | nil => intro d _ _; simp
  | cons p l ih =>
    intro d hfresh hnodup
    obtain ⟨k, v⟩ := p
    have h1 : k ∉ d.map Prod.fst := hfresh k (by simp)
    have hk_notin : k ∉ l.map Prod.fst := by
      simp only [List.map_cons, List.nodup_cons] at hnodup
      exact hnodup.1
    have hnodup2 : (l.map Prod.fst).Nodup := by
      simp only [List.map_cons, List.nodup_cons] at hnodup
      exact hnodup.2
    have hfresh2 : ∀ k2 ∈ l.map Prod.fst, k2 ∉ (d ++ [(k, v)]).map Prod.fst := by
      intro k2 hk2
      simp only [List.map_append, List.mem_append, List.map_cons, List.map_nil,
        List.mem_singleton]
      push_neg
      refine ⟨hfresh k2 (by simp [hk2]), ?_⟩
      intro hkk
      exact hk_notin (hkk ▸ hk2)
    rw [List.foldl_cons, updateAssoc_fresh d k v h1, ih (d ++ [(k, v)]) hfresh2 hnodup2]
    simp

theorem foldl_gpuStep_eq (c : Client) (rid : String) (l : List Nat) :
    ∀ acc : List (String × CellValue),
      l.foldl (gpuStep c rid) acc = (l.filterMap (gpuItem c rid)).foldl updateAssoc acc := by
  induction l with
  | nil => intro acc; rfl
  | cons i l ih =>
    intro acc
    by_cases h : fetch_full_metric_history c rid (gpuMetricName i) = []
    · simp [gpuStep, gpuItem, h, ih]
    · simp [gpuStep, gpuItem, h, ih]

theorem gpuItem_keys_sublist (c : Client) (rid : String) (l : List Nat) :
    ((l.filterMap (gpuItem c rid)).map Prod.fst).Sublist (l.map gpuHistoryKey) := by
  induction l with
  | nil => simp
  | cons i l ih =>
    by_cases h : fetch_full_metric_history c rid (gpuMetricName i) = []
    · simp only [List.filterMap_cons, gpuItem, h, if_pos, List.map_cons]
      exact ih.cons _
    · simp only [List.filterMap_cons, gpuItem, h, if_neg, not_false_iff, List.map_cons]
      exact ih.cons₂ _

theorem gpuKeys_list : (List.range 12).map gpuHistoryKey =
    ["GPU_0_History", "GPU_1_History", "GPU_2_History", "GPU_3_History",
     "GPU_4_History", "GPU_5_History", "GPU_6_History", "GPU_7_History",
     "GPU_8_History", "GPU_9_History", "GPU_10_History", "GPU_11_History"] := by
  decide

theorem gpu_keys_mem (c : Client) (rid : String) {k : String}
    (hk : k ∈ ((List.range 12).filterMap (gpuItem c rid)).map Prod.fst) :
    k ∈ (List.range 12).map gpuHistoryKey :=
  (gpuItem_keys_sublist c rid (List.range 12)).subset hk

theorem gpu_keys_nodup (c : Client) (rid : String) :
    (((List.range 12).filterMap (gpuItem c rid)).map Prod.fst).Nodup :=
  (gpuItem_keys_sublist c rid (List.range 12)).nodup (by decide)

theorem gpu_keys_not_fixed (c : Client) (rid : String) {k : String}
    (hk : k ∈ ((List.range 12).filterMap (gpuItem c rid)).map Prod.fst) :
    k ∉ fixedKeys := by
  have h12 := gpu_keys_mem c rid hk
  rw [gpuKeys_list] at h12
  fin_cases h12 <;> decide

theorem gpu_metric_histories_eq (c : Client) (rid : String) :
    gpu_metric_histories c rid = (List.range 12).filterMap (gpuItem c rid) := by
  unfold gpu_metric_histories
  rw [foldl_gpuStep_eq]
  rw [foldl_updateAssoc_eq_append _ [] (by simp) (gpu_keys_nodup c rid)]
  simp

theorem fixedRecord_keys (c : Client) (e : Experiment) (r : Run) (a : List String) :
    (fixedRecord c e r a).map Prod.fst = fixedKeys := rfl

/-- Structure of every successfully built run record: the eleven fixed
columns followed by one history column per populated GPU slot. -/
theorem build_run_record_ok {c : Client} {e : Experiment} {r : Run} {rec : RunRecord}
    (h : build_run_record c e r = Except.ok rec) :
    ∃ artifacts, c.list_artifacts r.run_id = Except.ok artifacts ∧
      rec = fixedRecord c e r artifacts ++
        (List.range 12).filterMap (gpuItem c r.run_id) := by
  unfold build_run_record build_run_data at h
  cases hart : c.list_artifacts r.run_id with
  | error e2 => rw [hart] at h; exact absurd h (by simp)
  | ok artifacts =>
    rw [hart] at h
    simp only [Except.ok.injEq] at h
    refine ⟨artifacts, rfl, ?_⟩
    rw [← h]
    unfold dictUpdate
    rw [gpu_metric_histories_eq]
    apply foldl_updateAssoc_eq_append
    · intro k hk
      rw [fixedRecord_keys]
      exact gpu_keys_not_fixed c r.run_id hk
    · exact gpu_keys_nodup c r.run_id

/-- The key list of every successfully built run record. -/
theorem build_run_record_keys {c : Client} {e : Experiment} {r : Run} {rec : RunRecord}
    (h : build_run_record c e r = Except.ok rec) :
    rec.map Prod.fst = fixedKeys ++ (List.range 12).filterMap
      (fun i => if fetch_full_metric_history c r.run_id (gpuMetricName i) = []
        then none else some (gpuHistoryKey i)) := by
  obtain ⟨a, _, hrec⟩ := build_run_record_ok h
  rw [hrec, List.map_append, fixedRecord_keys, List.map_filterMap]
  have hfun : (fun i => (gpuItem c r.run_id i).map Prod.fst) =
      (fun i => if fetch_full_metric_history c r.run_id (gpuMetricName i) = []
        then none else some (gpuHistoryKey i)) := by
    funext i
    unfold gpuItem
    split <;> rfl
  rw [hfun]

theorem assocLookup_append_left {α : Type} {d : List (String × α)} {k : String}
    {v : α} (h : assocLookup d k = some v) (g : List (String × α)) :
    assocLookup (d ++ g) k = some v := by
  induction d with
  | nil => exact absurd h (by simp [assocLookup])
  | cons p d ih =>
    unfold assocLookup at h ⊢
    by_cases hp : p.1 = k
    · simpa [hp] using h
    · rw [if_neg hp] at h
      simpa [hp] using ih h

theorem fixedRecord_lookup_duration (c : Client) (e : Experiment) (r : Run)
    (a : List String) :
    assocLookup (fixedRecord c e r a) "Duration (s)" = some (durationCell r) := by
  simp [fixedRecord, assocLookup]

theorem fixedRecord_lookup_end_time (c : Client) (e : Experiment) (r : Run)
    (a : List String) :
    assocLookup (fixedRecord c e r a) "End Time" =
      some (optCell (human_readable_date c.render_date r.end_time)) := by
  simp [fixedRecord, assocLookup]

theorem fixedRecord_lookup_user (c : Client) (e : Experiment) (r : Run)
    (a : List String) :
    assocLookup (fixedRecord c e r a) "User" =
      some (CellValue.s (pyGet r.tags "mlflow.user" "Unknown")) := by
  simp [fixedRecord, assocLookup]

theorem fixedRecord_lookup_source (c : Client) (e : Experiment) (r : Run)
    (a : List String) :
    assocLookup (fixedRecord c e r a) "Source" =
      some (CellValue.s (pyGet r.tags "mlflow.source.name" "Unknown")) := by
  simp [fixedRecord, assocLookup]

theorem fixedRecord_lookup_regmodels (c : Client) (e : Experiment) (r : Run)
    (a : List String) :
    assocLookup (fixedRecord c e r a) "Registered Models" =
      some (CellValue.s (pyGet r.tags "mlflow.log-model.history" "None")) := by
  simp [fixedRecord, assocLookup]

/-! ### Sweep-loop lemmas -/

theorem runsLoop_ok (c : Client) (e : Experiment) :
    ∀ runs : List Run,
      (∀ r ∈ runs, ∃ a, c.list_artifacts r.run_id = Except.ok a) →
      ∃ recs, runsLoop c e runs = Except.ok recs := by
  intro runs
  induction runs with
  | nil => exact fun _ => ⟨[], rfl⟩
  | cons r rs ih =>
    intro h
    obtain ⟨a, ha⟩ := h r (by simp)
    have hbuild : build_run_record c e r =
        Except.ok (dictUpdate (fixedRecord c e r a) (gpu_metric_histories c r.run_id)) := by
      unfold build_run_record build_run_data
      rw [ha]
    obtain ⟨recs, hrecs⟩ := ih (fun r2 hr2 => h r2 (by simp [hr2]))
    exact ⟨_, by rw [runsLoop, hbuild, hrecs]⟩

theorem expsLoop_ok (c : Client) :
    ∀ exps : List Experiment,
      (∀ rid, ∃ a, c.list_artifacts rid = Except.ok a) →
      ∃ recs, expsLoop c exps = Except.ok recs := by
  intro exps
  induction exps with
  | nil => exact fun _ => ⟨[], rfl⟩
  | cons e es ih =>
    intro h
    obtain ⟨recs1, hrecs1⟩ := runsLoop_ok c e (c.search_runs e.experiment_id)
      (fun r _ => h r.run_id)
    obtain ⟨recs2, hrecs2⟩ := ih h
    exact ⟨_, by rw [expsLoop, hrecs1, hrecs2]⟩

theorem mem_of_runsLoop_ok {c : Client} {e : Experiment} :
    ∀ {runs : List Run} {recs : List RunRecord} {rec : RunRecord},
      runsLoop c e runs = Except.ok recs → rec ∈ recs →
      ∃ r, r ∈ runs ∧ build_run_record c e r = Except.ok rec := by
  intro runs
  induction runs with
  | nil =>
    intro recs rec h hm
    unfold runsLoop at h
    simp only [Except.ok.injEq] at h
    rw [← h] at hm
    exact absurd hm (by simp)
  | cons r rs ih =>
    intro recs rec h hm
    unfold runsLoop at h
    cases hb : build_run_record c e r with
    | error err => rw [hb] at h; exact absurd h (by simp)
    | ok rec1 =>
      rw [hb] at h
      cases hrest : runsLoop c e rs with
      | error err => rw [hrest] at h; exact absurd h (by simp)
      | ok recs2 =>
        rw [hrest] at h
        simp only [Except.ok.injEq] at h
        rw [← h] at hm
        rcases List.mem_cons.mp hm with heq | htail
        · exact ⟨r, by simp, heq ▸ hb⟩
        · obtain ⟨r2, hr2, hb2⟩ := ih hrest htail
          exact ⟨r2, by simp [hr2], hb2⟩

theorem mem_of_expsLoop_ok {c : Client} :
    ∀ {exps : List Experiment} {recs : List RunRecord} {rec : RunRecord},
      expsLoop c exps = Except.ok recs → rec ∈ recs →
      ∃ e r, build_run_record c e r = Except.ok rec := by
  intro exps
  induction exps with
  | nil =>
    intro recs rec h hm
    unfold expsLoop at h
    simp only [Except.ok.injEq] at h
    rw [← h] at hm
    exact absurd hm (by simp)
  | cons e es ih =>
    intro recs rec h hm
    unfold expsLoop at h
    cases h1 : runsLoop c e (c.search_runs e.experiment_id) with
    | error err => rw [h1] at h; exact absurd h (by simp)
    | ok recs1 =>
      rw [h1] at h
      cases h2 : expsLoop c es with
      | error err => rw [h2] at h; exact absurd h (by simp)
      | ok recs2 =>
        rw [h2] at h
        simp only [Except.ok.injEq] at h
        rw [← h] at hm
        rcases List.mem_append.mp hm with h1m | h2m
        · obtain ⟨r, _, hb⟩ := mem_of_runsLoop_ok h1 h1m
          exact ⟨e, r, hb⟩
        · exact ih h2 h2m

/-- Every record a successful sweep returns was built by
`build_run_record`. -/
theorem fetch_all_mem {c : Client} {recs : List RunRecord} {rec : RunRecord}
    (h : fetch_all_experiment_metrics c = Except.ok recs) (hm : rec ∈ recs) :
    ∃ e r, build_run_record c e r = Except.ok rec :=
  mem_of_expsLoop_ok h hm

theorem mem_of_dedupFirstAux {x : String} :
    ∀ (l seen : List String), x ∈ dedupFirstAux seen l → x ∈ l := by
  intro l
  induction l with
  | nil => intro seen h; exact absurd h (by simp [dedupFirstAux])
  | cons y l ih =>
    intro seen h
    unfold dedupFirstAux at h
    by_cases hy : y ∈ seen
    · rw [if_pos hy] at h
      exact List.mem_cons_of_mem y (ih seen h)
    · rw [if_neg hy] at h
      rcases List.mem_cons.mp h with heq | htail
      · exact heq ▸ List.mem_cons_self y l
      · exact List.mem_cons_of_mem y (ih (y :: seen) htail)

/-- Every DataFrame column comes from some record's key list. -/
theorem mem_of_dfColumns {k : String} {records : List RunRecord}
    (h : k ∈ dfColumns records) : ∃ rec ∈ records, k ∈ rec.map Prod.fst := by
  unfold dfColumns at h
  have := mem_of_dedupFirstAux _ [] h
  rw [List.mem_flatMap] at this
  exact this

/-! ### Decimal rendering lemmas -/

theorem digitChar_toNat {d : Nat} (h : d < 10) : (Nat.digitChar d).toNat - 48 = d := by
  interval_cases d <;> rfl

theorem digitChar_isDigit {d : Nat} (h : d < 10) : (Nat.digitChar d).isDigit = true := by
  interval_cases d <;> rfl

theorem isDigit_ne_semi {ch : Char} (h : ch.isDigit = true) : ch ≠ ';' := by
  intro heq
  rw [heq] at h
  exact absurd h (by decide)

theorem natReprAux_ne_nil : ∀ {fuel n : Nat}, n < fuel → natReprAux fuel n ≠ [] := by
  intro fuel
  induction fuel with
  | zero => intro n h; exact absurd h (by omega)
  | succ f _ =>
    intro n _
    unfold natReprAux
    split
    · simp
    · simp

theorem natReprAux_digits : ∀ {fuel n : Nat}, n < fuel →
    ∀ ch ∈ natReprAux fuel n, ch.isDigit = true := by
  intro fuel
  induction fuel with
  | zero => intro n h; exact absurd h (by omega)
  | succ f ih =>
    intro n hn ch hch
    unfold natReprAux at hch
    by_cases h10 : n < 10
    · rw [if_pos h10] at hch
      rw [List.mem_singleton] at hch
      exact hch ▸ digitChar_isDigit h10
    · rw [if_neg h10] at hch
      rcases List.mem_append.mp hch with h1 | h2
      · have hdiv : n / 10 < f := by
          have := Nat.div_lt_self (by omega : 0 < n) (by omega : 1 < 10)
          omega
        exact ih hdiv ch h1
      · rw [List.mem_singleton] at h2
        exact h2 ▸ digitChar_isDigit (Nat.mod_lt n (by omega))

theorem digitsToNat_append (ds : List Char) (ch : Char) :
    digitsToNat (ds ++ [ch]) = 10 * digitsToNat ds + (ch.toNat - 48) := by
  simp [digitsToNat, List.foldl_append]

theorem digitsToNat_natReprAux : ∀ {fuel n : Nat}, n < fuel →
    digitsToNat (natReprAux fuel n) = n := by
  intro fuel
  induction fuel with
  | zero => intro n h; exact absurd h (by omega)
  | succ f ih =>
    intro n hn
    unfold natReprAux
    by_cases h10 : n < 10
    · rw [if_pos h10]
      show digitsToNat [Nat.digitChar n] = n
      have : digitsToNat [Nat.digitChar n] = (Nat.digitChar n).toNat - 48 := by
        simp [digitsToNat]
      rw [this, digitChar_toNat h10]
    · rw [if_neg h10]
      have hdiv : n / 10 < f := by
        have := Nat.div_lt_self (by omega : 0 < n) (by omega : 1 < 10)
        omega
      rw [digitsToNat_append, ih hdiv, digitChar_toNat (Nat.mod_lt n (by omega))]
      omega

/-! ### takeWhile and dropWhile over appends -/

theorem takeWhile_append_all {p : Char → Bool} :
    ∀ {A : List Char} (B : List Char), (∀ a ∈ A, p a = true) →
      (A ++ B).takeWhile p = A ++ B.takeWhile p := by
  intro A
  induction A with
  | nil => intro B _; simp
  | cons a A ih =>
    intro B h
    have ha : p a = true := h a (by simp)
    simp only [List.cons_append, List.takeWhile_cons, ha, if_true]
    rw [ih B (fun x hx => h x (by simp [hx]))]

theorem dropWhile_append_all {p : Char → Bool} :
    ∀ {A : List Char} (B : List Char), (∀ a ∈ A, p a = true) →
      (A ++ B).dropWhile p = B.dropWhile p := by
  intro A
  induction A with
  | nil => intro B _; simp
  | cons a A ih =>
    intro B h
    have ha : p a = true := h a (by simp)
    simp only [List.cons_append, List.dropWhile_cons, ha, if_true]
    exact ih B (fun x hx => h x (by simp [hx]))

/-! ### Integer-token round trip -/

theorem parseNatToken_append {n : Nat} (B : List Char) :
    parseNatToken (natReprAux (n + 1) n ++ ',' :: B) = some (n, ',' :: B) := by
  have hn : n < n + 1 := Nat.lt_succ_self n
  have hdigits := natReprAux_digits hn
  have htake : (natReprAux (n + 1) n ++ ',' :: B).takeWhile Char.isDigit =
      natReprAux (n + 1) n := by
    rw [takeWhile_append_all _ hdigits]
    simp [List.takeWhile_cons]
  have hdrop : (natReprAux (n + 1) n ++ ',' :: B).dropWhile Char.isDigit =
      ',' :: B := by
    rw [dropWhile_append_all _ hdigits]
    simp [List.dropWhile_cons]
  unfold parseNatToken
  rw [htake, hdrop]
  have hne : natReprAux (n + 1) n ≠ [] := natReprAux_ne_nil hn
  rw [if_neg (by simpa [List.isEmpty_iff] using hne)]
  rw [digitsToNat_natReprAux hn]

theorem parseIntToken_append (i : Int) (B : List Char) :
    parseIntToken ((intRepr i).data ++ ',' :: B) = some (i, ',' :: B) := by
  unfold intRepr
  by_cases hneg : i < 0
  · rw [if_pos hneg]
    have hdata : ("-" ++ natRepr i.natAbs).data = '-' :: natReprAux (i.natAbs + 1) i.natAbs := by
      rw [String.data_append]
      rfl
    rw [hdata]
    show parseIntToken ('-' :: (natReprAux (i.natAbs + 1) i.natAbs ++ ',' :: B)) = _
    simp only [parseIntToken, if_pos rfl, parseNatToken_append B]
    have : -(i.natAbs : Int) = i := by omega
    rw [this]
    simp
  · rw [if_neg hneg]
    have hdata : (natRepr i.natAbs).data = natReprAux (i.natAbs + 1) i.natAbs := rfl
    rw [hdata]
    have hn : i.natAbs < i.natAbs + 1 := Nat.lt_succ_self _
    obtain ⟨a, A, hA⟩ := List.exists_cons_of_ne_nil (natReprAux_ne_nil hn)
    have ha_digit : a.isDigit = true := natReprAux_digits hn a (by rw [hA]; simp)
    have ha_ne : a ≠ '-' := by
      intro heq
      rw [heq] at ha_digit
      exact absurd ha_digit (by decide)
    rw [hA]
    show parseIntToken (a :: (A ++ ',' :: B)) = _
    have hsplit : a :: (A ++ ',' :: B) = (a :: A) ++ ',' :: B := by simp
    simp only [parseIntToken, if_neg ha_ne, hsplit, ← hA, parseNatToken_append B]
    have : (i.natAbs : Int) = i := by omega
    rw [this]

/-! ### Entry round trip -/

theorem sampleEntry_data (ts : Int) (v : String) :
    (sampleEntry ts v).data =
      "Timestamp: ".data ++
        ((intRepr ts).data ++ (',' :: (" Value: ".data ++ v.data))) := by
  simp only [sampleEntry, String.data_append, List.append_assoc]
  rfl

theorem parseEntry_roundtrip (ts : Int) (v : String) :
    parseEntry (sampleEntry ts v).data = some (ts, v) := by
  rw [sampleEntry_data]
  unfold parseEntry
  have hpre : ("Timestamp: ".data.isPrefixOf ("Timestamp: ".data ++
      ((intRepr ts).data ++ (',' :: (" Value: ".data ++ v.data))))) = true := by
    simp [List.isPrefixOf_iff_prefix]
  rw [if_pos hpre]
  have hdrop : ("Timestamp: ".data ++
      ((intRepr ts).data ++ (',' :: (" Value: ".data ++ v.data)))).drop 11 =
      (intRepr ts).data ++ (',' :: (" Value: ".data ++ v.data)) :=
    List.drop_left' (by decide)
  rw [hdrop, parseIntToken_append]
  show (if (", Value: ").data.isPrefixOf (',' :: (" Value: ".data ++ v.data)) then
      some (ts, String.mk ((',' :: (" Value: ".data ++ v.data)).drop 9))
    else none) = some (ts, v)
  have hB : ',' :: (" Value: ".data ++ v.data) = ", Value: ".data ++ v.data := rfl
  rw [hB]
  have hpre2 : ((", Value: ").data.isPrefixOf (", Value: ".data ++ v.data)) = true := by
    simp [List.isPrefixOf_iff_prefix]
  rw [if_pos hpre2]
  have hdrop2 : (", Value: ".data ++ v.data).drop 9 = v.data :=
    List.drop_left' (by decide)
  rw [hdrop2]

theorem mem_intRepr_data {ch : Char} {i : Int} (h : ch ∈ (intRepr i).data) :
    ch.isDigit = true ∨ ch = '-' := by
  unfold intRepr at h
  by_cases hneg : i < 0
  · rw [if_pos hneg, String.data_append] at h
    rcases List.mem_append.mp h with h1 | h2
    · right; simpa using h1
    · left; exact natReprAux_digits (Nat.lt_succ_self _) ch h2
  · rw [if_neg hneg] at h
    left; exact natReprAux_digits (Nat.lt_succ_self _) ch h

theorem sampleEntry_no_semi {ts : Int} {v : String} (hv : ';' ∉ v.data) :
    ';' ∉ (sampleEntry ts v).data := by
  intro h
  rw [sampleEntry_data] at h
  rcases List.mem_append.mp h with h1 | h2
  · exact absurd h1 (by decide)
  · rcases List.mem_append.mp h2 with h3 | h4
    · rcases mem_intRepr_data h3 with hd | hd
      · exact absurd rfl (isDigit_ne_semi hd)
      · exact absurd hd (by decide)
    · rcases List.mem_cons.mp h4 with h5 | h6
      · exact absurd h5 (by decide)
      · rcases List.mem_append.mp h6 with h7 | h8
        · exact absurd h7 (by decide)
        · exact hv h8

theorem sampleEntry_data_ne_nil (ts : Int) (v : String) :
    (sampleEntry ts v).data ≠ [] := by
  rw [sampleEntry_data]
  simp

/-! ### Delimiter split and join -/

theorem pyJoin_semi_data :
    ∀ parts : List String, (pyJoin "; " parts).data = sepJoin (parts.map String.data) := by
  intro parts
  induction parts with
  | nil => rfl
  | cons p rest ih =>
    cases rest with
    | nil => rfl
    | cons q rest2 =>
      show (p ++ "; " ++ pyJoin "; " (q :: rest2)).data = _
      rw [String.data_append, String.data_append, ih]
      simp only [List.map_cons, sepJoin, List.append_assoc]
      rfl

theorem splitSemi_append : ∀ (e : List Char), ';' ∉ e →
    ∀ (cs t : List Char) (ts : List (List Char)),
      splitSemi cs = t :: ts → splitSemi (e ++ cs) = (e ++ t) :: ts := by
  intro e
  induction e with
  | nil => intro _ cs t ts h; simpa using h
  | cons c e ih =>
    intro he cs t ts h
    have hc : c ≠ ';' := fun heq => he (heq ▸ List.mem_cons_self c e)
    have he2 : ';' ∉ e := fun hm => he (List.mem_cons_of_mem c hm)
    rw [List.cons_append]
    cases hw : e ++ cs with
    | nil =>
      rcases List.append_eq_nil.mp hw with ⟨he0, hcs0⟩
      subst he0
      subst hcs0
      simp only [splitSemi] at h
      injection h with h1 h2
      subst h1
      subst h2
      simp [splitSemi]
    | cons d w =>
      have hrec : splitSemi (d :: w) = (e ++ t) :: ts := by
        rw [← hw]
        exact ih he2 cs t ts h
      simp only [splitSemi]
      rw [if_neg (fun hand => hc hand.1), hrec]
      simp

theorem splitSemi_sepJoin : ∀ es : List (List Char), es ≠ [] →
    (∀ e ∈ es, ';' ∉ e) → splitSemi (sepJoin es) = es := by
  intro es
  induction es with
  | nil => intro h _; exact absurd rfl h
  | cons e es ih =>
    intro _ he
    cases es with
    | nil =>
      have h0 : splitSemi ([] : List Char) = [] :: [] := by simp [splitSemi]
      have h2 := splitSemi_append e (he e (by simp)) [] [] [] h0
      simpa [sepJoin] using h2
    | cons e2 es2 =>
      have hrec : splitSemi (sepJoin (e2 :: es2)) = e2 :: es2 :=
        ih (by simp) (fun x hx => he x (by simp [hx]))
      have hcs : splitSemi (';' :: ' ' :: sepJoin (e2 :: es2)) = [] :: e2 :: es2 := by
        simp [splitSemi, hrec]
      have h2 := splitSemi_append e (he e (by simp)) _ _ _ hcs
      have hj : sepJoin (e :: e2 :: es2) = e ++ ';' :: ' ' :: sepJoin (e2 :: es2) := rfl
      rw [hj, h2]
      simp

theorem sepJoin_cons_ne_nil {e : List Char} {es : List (List Char)}
    (hne : e ≠ []) : sepJoin (e :: es) ≠ [] := by
  cases es with
  | nil => simpa [sepJoin] using hne
  | cons e2 es2 => simp [sepJoin]

theorem parseEntries_map : ∀ l : List (Int × String),
    parseEntries (l.map (fun p => (sampleEntry p.1 p.2).data)) = some l := by
  intro l
  induction l with
  | nil => rfl
  | cons p l ih =>
    obtain ⟨ts, v⟩ := p
    simp only [List.map_cons, parseEntries, parseEntry_roundtrip, ih]

theorem history_str_data (l : List (Int × String)) :
    (history_str l).data = sepJoin (l.map (fun p => (sampleEntry p.1 p.2).data)) := by
  rw [history_str, pyJoin_semi_data, List.map_map]
  rfl

/-! ### Key-shape helpers -/

theorem gpu_keys_only {c : Client} {rid : String} {k : String}
    (hk : k ∈ (List.range 12).filterMap
      (fun i => if fetch_full_metric_history c rid (gpuMetricName i) = []
        then none else some (gpuHistoryKey i))) :
    ∃ i, i < 12 ∧ k = gpuHistoryKey i ∧
      fetch_full_metric_history c rid (gpuMetricName i) ≠ [] := by
  rw [List.mem_filterMap] at hk
  obtain ⟨j, hj, hjeq⟩ := hk
  by_cases hje : fetch_full_metric_history c rid (gpuMetricName j) = []
  · rw [if_pos hje] at hjeq
    exact absurd hjeq (by simp)
  · rw [if_neg hje, Option.some.injEq] at hjeq
    exact ⟨j, List.mem_range.mp hj, hjeq.symm, hje⟩

/-- A key that is neither a fixed column nor any GPU history column never
appears in a run record. -/
theorem key_not_in_record {c : Client} {e : Experiment} {r : Run} {rec : RunRecord}
    (hb : build_run_record c e r = Except.ok rec) {k : String}
    (hfix : k ∉ fixedKeys) (hgpu : ∀ i, i < 12 → k ≠ gpuHistoryKey i) :
    k ∉ rec.map Prod.fst := by
  rw [build_run_record_keys hb]
  intro h
  rcases List.mem_append.mp h with h1 | h2
  · exact hfix h1
  · obtain ⟨i, hi, heq, _⟩ := gpu_keys_only h2
    exact hgpu i hi heq

/-! ## Claim theorems -/

/-- C4: the metric-history fetch never raises to its caller — its result
type is pure by construction; every retrieval failure yields the empty
series and a successful retrieval yields the history's (timestamp, value)
pairs unchanged, in recorded order. -/
theorem C4_fetch_never_raises (c : Client) (run_id metric_name : String) :
    (∀ err, c.get_metric_history run_id metric_name = Except.error err →
      fetch_full_metric_history c run_id metric_name = []) ∧
    (∀ h, c.get_metric_history run_id metric_name = Except.ok h →
      fetch_full_metric_history c run_id metric_name = h) := by
  constructor
  · intro err he
    unfold fetch_full_metric_history
    rw [he]
  · intro h hh
    unfold fetch_full_metric_history
    rw [hh]

/-- Witness for C4 at a concrete client: a successful probe returns the
recorded pairs and a failing probe returns the empty series. -/
theorem C4_witness :
    fetch_full_metric_history exClientA "run-a" (gpuMetricName 0) =
      [(0, "5.0"), (1, "15.0")] ∧
    fetch_full_metric_history exClientA "run-a" (gpuMetricName 1) = [] :=
  ⟨(C4_fetch_never_raises exClientA "run-a" (gpuMetricName 0)).2 _ rfl,
   (C4_fetch_never_raises exClientA "run-a" (gpuMetricName 1)).1 "metric not found" rfl⟩

/-- C5: a run record carries the slot-`i` column exactly when slot `i`'s
fetched series is non-empty; no `overall_average` column ever exists, and
a run with all slots empty keeps exactly the fixed columns. -/
theorem C5_slot_columns_iff_populated (c : Client) (e : Experiment) (r : Run)
    (rec : RunRecord) (hb : build_run_record c e r = Except.ok rec) :
    (∀ i, i < 12 → (gpuHistoryKey i ∈ rec.map Prod.fst ↔
      fetch_full_metric_history c r.run_id (gpuMetricName i) ≠ [])) ∧
    "overall_average" ∉ rec.map Prod.fst ∧
    ((∀ i, i < 12 → fetch_full_metric_history c r.run_id (gpuMetricName i) = []) →
      rec.map Prod.fst = fixedKeys) := by
  have hkeys := build_run_record_keys hb
  refine ⟨?_, ?_, ?_⟩
  · intro i hi
    rw [hkeys, List.mem_append]
    constructor
    · rintro (hfix | hdyn)
      · exact absurd hfix (by interval_cases i <;> decide)
      · obtain ⟨j, hj, heq, hne⟩ := gpu_keys_only hdyn
        have hinj := List.inj_on_of_nodup_map
          (f := gpuHistoryKey) (l := List.range 12) (by decide)
        have hij : j = i :=
          hinj (List.mem_range.mpr hj) (List.mem_range.mpr hi) heq.symm
        exact hij ▸ hne
    · intro hne
      right
      rw [List.mem_filterMap]
      exact ⟨i, List.mem_range.mpr hi, by rw [if_neg hne]⟩
  · exact key_not_in_record hb (by decide) (by intro i hi; interval_cases i <;> decide)
  · intro hall
    rw [hkeys]
    have hnil : (List.range 12).filterMap
        (fun i => if fetch_full_metric_history c r.run_id (gpuMetricName i) = []
          then none else some (gpuHistoryKey i)) = [] := by
      rw [List.filterMap_eq_nil_iff]
      intro j hj
      rw [if_pos (hall j (List.mem_range.mp hj))]
    rw [hnil, List.append_nil]

/-- Witness for C5 at a concrete client: slot 0 is populated and present,
slot 1 is empty and absent, and no `overall_average` column exists. -/
theorem C5_witness :
    (gpuHistoryKey 0 ∈ exRecA.map Prod.fst ↔
      fetch_full_metric_history exClientA exRunA.run_id (gpuMetricName 0) ≠ []) ∧
    (gpuHistoryKey 1 ∈ exRecA.map Prod.fst ↔
      fetch_full_metric_history exClientA exRunA.run_id (gpuMetricName 1) ≠ []) ∧
    "overall_average" ∉ exRecA.map Prod.fst :=
  ⟨(C5_slot_columns_iff_populated exClientA (Experiment.mk "1" "exp-a") exRunA
      exRecA rfl).1 0 (by decide),
   (C5_slot_columns_iff_populated exClientA (Experiment.mk "1" "exp-a") exRunA
      exRecA rfl).1 1 (by decide),
   (C5_slot_columns_iff_populated exClientA (Experiment.mk "1" "exp-a") exRunA
      exRecA rfl).2.1⟩

/-- C6 counterexample: `exRunZ` has `end_ts` present and equal to 0, so
the claim predicts a numeric Duration `(0 − start_ts) / 1000`, but the
code's truthiness test yields a null Duration cell — no numeric duration
exists in the record. -/
theorem C6_counterexample :
    build_run_record exClientZ (Experiment.mk "9" "exp-z") exRunZ = Except.ok exRecZ ∧
    exRunZ.end_time = some 0 ∧
    assocLookup exRecZ "Duration (s)" = some CellValue.null ∧
    ¬ ∃ q : Rat, assocLookup exRecZ "Duration (s)" = some (CellValue.num q) := by
  refine ⟨rfl, rfl, by decide, ?_⟩
  rintro ⟨q, hq⟩
  rw [show assocLookup exRecZ "Duration (s)" = some CellValue.null by decide] at hq
  simp at hq

/-- C6 amended: Duration equals `(end_ts − start_ts) / 1000` seconds when
`end_ts` is present and nonzero, and is absent (null) when `end_ts` is
absent or zero — presence is decided by Python truthiness. -/
theorem C6_amended_duration (c : Client) (e : Experiment) (r : Run)
    (rec : RunRecord) (hb : build_run_record c e r = Except.ok rec) :
    (∀ t : Int, r.end_time = some t → t ≠ 0 →
      assocLookup rec "Duration (s)" =
        some (CellValue.num (((t - r.start_time : Int) : Rat) / 1000))) ∧
    ((r.end_time = none ∨ r.end_time = some 0) →
      assocLookup rec "Duration (s)" = some CellValue.null) := by
  obtain ⟨a, _, hrec⟩ := build_run_record_ok hb
  subst hrec
  constructor
  · intro t ht hnz
    rw [assocLookup_append_left (fixedRecord_lookup_duration c e r a)]
    simp [durationCell, ht, hnz]
  · intro h
    rw [assocLookup_append_left (fixedRecord_lookup_duration c e r a)]
    rcases h with h | h <;> simp [durationCell, h]

/-- Witness for the amended C6 at concrete runs: a run finished at 61000ms
after starting at 1000ms gets the numeric duration, and a run that ended
at epoch 0 gets a null duration. -/
theorem C6_witness :
    assocLookup exRecF "Duration (s)" =
      some (CellValue.num ((((61000 : Int) - exRunF.start_time : Int) : Rat) / 1000)) ∧
    assocLookup exRecZ "Duration (s)" = some CellValue.null :=
  ⟨(C6_amended_duration exClientF (Experiment.mk "4" "exp-f") exRunF exRecF rfl).1
      61000 rfl (by decide),
   (C6_amended_duration exClientZ (Experiment.mk "9" "exp-z") exRunZ exRecZ rfl).2
      (Or.inr rfl)⟩

/-- C7: serializing a metric series into the audit-trail string (entries
`"Timestamp: T, Value: V"` joined by `"; "`) and parsing it back yields
the same pairs in the same order; the hypothesis reflects that Python's
rendering of a float value never contains a semicolon. -/
theorem C7_serialize_parse_roundtrip (history : List (Int × String))
    (hv : ∀ p ∈ history, ';' ∉ p.2.data) :
    parse_metric_series (history_str history) = some history := by
  cases history with
  | nil => rfl
  | cons p l =>
    have hmap : (history_str (p :: l)).data =
        sepJoin ((p :: l).map (fun q => (sampleEntry q.1 q.2).data)) :=
      history_str_data (p :: l)
    have hne : sepJoin ((p :: l).map (fun q => (sampleEntry q.1 q.2).data)) ≠ [] := by
      simp only [List.map_cons]
      exact sepJoin_cons_ne_nil (sampleEntry_data_ne_nil p.1 p.2)
    have hnosemi : ∀ ent ∈ (p :: l).map (fun q => (sampleEntry q.1 q.2).data),
        ';' ∉ ent := by
      intro ent hent
      rw [List.mem_map] at hent
      obtain ⟨q, hq, hqe⟩ := hent
      rw [← hqe]
      exact sampleEntry_no_semi (hv q hq)
    unfold parse_metric_series
    rw [hmap, if_neg (by simpa [List.isEmpty_iff] using hne)]
    rw [splitSemi_sepJoin _ (by simp) hnosemi]
    exact parseEntries_map (p :: l)

/-- Witness for C7 at the spec's example series [5.0, 15.0]. -/
theorem C7_witness :
    parse_metric_series (history_str [((0 : Int), "5.0"), ((1 : Int), "15.0")]) =
      some [((0 : Int), "5.0"), ((1 : Int), "15.0")] :=
  C7_serialize_parse_roundtrip [((0 : Int), "5.0"), ((1 : Int), "15.0")] (by decide)

/-- C1 counterexample: under `exClientA` the only run has exactly one
populated slot with samples [5.0, 15.0], yet its record contains no
`overall_average` column and no cell holding the numeric value 10 — the
claimed slot average and overall average are never computed. -/
theorem C1_counterexample :
    fetch_all_experiment_metrics exClientA = Except.ok [exRecA] ∧
    fetch_full_metric_history exClientA exRunA.run_id (gpuMetricName 0) =
      [(0, "5.0"), (1, "15.0")] ∧
    "overall_average" ∉ exRecA.map Prod.fst ∧
    CellValue.num 10 ∉ exRecA.map Prod.snd :=
  ⟨rfl, rfl, by decide, by decide⟩

/-- C1 amended: for every run the aggregator records, per populated slot,
only the serialized history string under the slot's history key; it
computes no per-slot average and no overall average — there is no
`overall_average` column, and the only column that can ever hold a number
is the Duration column. -/
theorem C1_amended_no_averages (c : Client) (e : Experiment) (r : Run)
    (rec : RunRecord) (hb : build_run_record c e r = Except.ok rec) :
    (∀ i, i < 12 → fetch_full_metric_history c r.run_id (gpuMetricName i) ≠ [] →
      (gpuHistoryKey i, CellValue.s (history_str
        (fetch_full_metric_history c r.run_id (gpuMetricName i)))) ∈ rec) ∧
    "overall_average" ∉ rec.map Prod.fst ∧
    (∀ k q, (k, CellValue.num q) ∈ rec → k = "Duration (s)") := by
  obtain ⟨a, _, hrec⟩ := build_run_record_ok hb
  refine ⟨?_, ?_, ?_⟩
  · intro i hi hne
    rw [hrec, List.mem_append]
    right
    rw [List.mem_filterMap]
    refine ⟨i, List.mem_range.mpr hi, ?_⟩
    unfold gpuItem
    rw [if_neg hne]
  · exact key_not_in_record hb (by decide) (by intro i hi; interval_cases i <;> decide)
  · intro k q hmem
    rw [hrec] at hmem
    rcases List.mem_append.mp hmem with h1 | h2
    · simp only [fixedRecord, List.mem_cons, List.not_mem_nil, or_false] at h1
      rcases h1 with h|h|h|h|h|h|h|h|h|h|h
      · exact absurd h (by simp)
      · exact absurd h (by simp)
      · exact absurd h (by simp)
      · exact absurd h (by simp)
      · exact absurd h (by simp)
      · exact absurd h (by simp)
      · exact absurd h (by simp [human_readable_date, optCell])
      · rcases hre : r.end_time with _ | t <;> rw [hre] at h <;>
          exact absurd h (by simp [human_readable_date, optCell])
      · exact congrArg Prod.fst h
      · exact absurd h (by simp)
      · exact absurd h (by simp)
    · rw [List.mem_filterMap] at h2
      obtain ⟨j, hj, hjeq⟩ := h2
      unfold gpuItem at hjeq
      by_cases hje : fetch_full_metric_history c r.run_id (gpuMetricName j) = []
      · rw [if_pos hje] at hjeq
        exact absurd hjeq (by simp)
      · rw [if_neg hje] at hjeq
        exact absurd hjeq (by simp)

/-- Witness for the amended C1: the populated slot of `exClientA`'s run
stores exactly its serialized history, and no overall-average column
exists. -/
theorem C1_witness :
    (gpuHistoryKey 0, CellValue.s (history_str
      (fetch_full_metric_history exClientA exRunA.run_id (gpuMetricName 0)))) ∈ exRecA ∧
    "overall_average" ∉ exRecA.map Prod.fst :=
  ⟨(C1_amended_no_averages exClientA (Experiment.mk "1" "exp-a") exRunA exRecA rfl).1
      0 (by decide) (by decide),
   (C1_amended_no_averages exClientA (Experiment.mk "1" "exp-a") exRunA exRecA rfl).2.1⟩

/-- C2 counterexample: `exRunB` carries both a Conda-environment tag and a
Docker tag, yet its record has no `environment_kind` column and no cell
holds the value "Conda" — no environment-kind resolution exists in the
code. -/
theorem C2_counterexample :
    pyGet exRunB.tags "mlflow.source.conda_env" "" = "conda.yaml" ∧
    pyGet exRunB.tags "mlflow.docker.image" "" = "pytorch:latest" ∧
    fetch_all_experiment_metrics exClientB = Except.ok [exRecB] ∧
    "environment_kind" ∉ exRecB.map Prod.fst ∧
    CellValue.s "Conda" ∉ exRecB.map Prod.snd :=
  ⟨rfl, rfl, rfl, by decide, by decide⟩

/-- C2 amended: tag-map resolution extracts only the user
(`mlflow.user`, default "Unknown"), the source (`mlflow.source.name`,
default "Unknown") and the registered-models tag
(`mlflow.log-model.history`, default "None"); no `environment_kind` is
computed, so Conda, requirements or Docker tags have no effect on the
record. -/
theorem C2_amended_no_environment_kind (c : Client) (e : Experiment) (r : Run)
    (rec : RunRecord) (hb : build_run_record c e r = Except.ok rec) :
    assocLookup rec "User" =
      some (CellValue.s (pyGet r.tags "mlflow.user" "Unknown")) ∧
    assocLookup rec "Source" =
      some (CellValue.s (pyGet r.tags "mlflow.source.name" "Unknown")) ∧
    assocLookup rec "Registered Models" =
      some (CellValue.s (pyGet r.tags "mlflow.log-model.history" "None")) ∧
    "environment_kind" ∉ rec.map Prod.fst := by
  obtain ⟨a, _, hrec⟩ := build_run_record_ok hb
  refine ⟨?_, ?_, ?_, ?_⟩
  · rw [hrec]
    exact assocLookup_append_left (fixedRecord_lookup_user c e r a) _
  · rw [hrec]
    exact assocLookup_append_left (fixedRecord_lookup_source c e r a) _
  · rw [hrec]
    exact assocLookup_append_left (fixedRecord_lookup_regmodels c e r a) _
  · exact key_not_in_record hb (by decide) (by intro i hi; interval_cases i <;> decide)

/-- Witness for the amended C2 at `exClientB`: the user cell falls back to
"Unknown" and no environment-kind column exists. -/
theorem C2_witness :
    assocLookup exRecB "User" =
      some (CellValue.s (pyGet exRunB.tags "mlflow.user" "Unknown")) ∧
    "environment_kind" ∉ exRecB.map Prod.fst :=
  ⟨(C2_amended_no_environment_kind exClientB (Experiment.mk "2" "exp-b") exRunB
      exRecB rfl).1,
   (C2_amended_no_environment_kind exClientB (Experiment.mk "2" "exp-b") exRunB
      exRecB rfl).2.2.2⟩

/-- C3 counterexample: with the endpoint configured, a failure that is not
the configuration error — the artifact-listing failure of `exClientC` —
crashes the whole process instead of being absorbed; no report is
produced. -/
theorem C3_counterexample :
    getenv exEnv "MLFLOW_TRACKING_URI" = some "http://mlflow.internal:5000" ∧
    exClientC.list_artifacts exRunA.run_id =
      Except.error "artifact store unreachable" ∧
    main exEnv exClientC = Outcome.crashed "artifact store unreachable" :=
  ⟨rfl, rfl, rfl⟩

/-- C3 amended: only metric-history retrieval failures are absorbed — if
artifact listing succeeds for every run the sweep succeeds no matter how
many metric probes fail — while a failure building a run's record (such as
an artifact-listing failure) propagates and halts the sweep, and a missing
tracking endpoint halts at startup. -/
theorem C3_amended_absorption (env : List (String × String)) (c : Client) :
    ((∀ rid, ∃ a, c.list_artifacts rid = Except.ok a) →
      ∃ recs, fetch_all_experiment_metrics c = Except.ok recs) ∧
    (getenv env "MLFLOW_TRACKING_URI" = none → main env c = Outcome.configError) := by
  constructor
  · intro h
    exact expsLoop_ok c c.experiments h
  · intro h
    simp [main, h]

/-- Witness for the amended C3: `exClientA` (whose metric probes mostly
fail but whose artifact listing succeeds) sweeps successfully, and an
empty environment halts as a configuration error. -/
theorem C3_witness :
    (∃ recs, fetch_all_experiment_metrics exClientA = Except.ok recs) ∧
    main [] exClientA = Outcome.configError :=
  ⟨(C3_amended_absorption [] exClientA).1 (fun _ => ⟨[], rfl⟩),
   (C3_amended_absorption [] exClientA).2 rfl⟩

/-- C8 counterexample: populating one slot adds exactly one dynamic column
(`GPU_0_History`) to the sheet's column set, not the claimed pair of
history and average columns, and no overall-average or parameter-summary
column exists among the columns. -/
theorem C8_counterexample :
    fetch_all_experiment_metrics exClientA = Except.ok [exRecA] ∧
    fetch_all_experiment_metrics exClientB = Except.ok [exRecB] ∧
    dfColumns [exRecA] = fixedKeys ++ ["GPU_0_History"] ∧
    dfColumns [exRecB] = fixedKeys ∧
    (dfColumns [exRecA]).filter
      (fun k => !(dfColumns [exRecB]).contains k) = ["GPU_0_History"] :=
  ⟨rfl, rfl, by decide, by decide, by decide⟩

/-- C8 amended: the workbook is built only from the fully accumulated
record list — a successful non-empty sweep saves a workbook whose first
sheet is "Experiment Metrics" with the first-appearance union of the
records' keys as header and exactly one row per run, and every column is
either one of the eleven fixed columns or a GPU history column; a crashed
or empty sweep writes nothing. -/
theorem C8_amended_output_shape (env : List (String × String)) (c : Client)
    (uri : String) (recs : List RunRecord)
    (hcfg : getenv env "MLFLOW_TRACKING_URI" = some uri) (hne : uri ≠ "")
    (hok : fetch_all_experiment_metrics c = Except.ok recs) (hnonempty : recs ≠ []) :
    main env c = Outcome.saved "experiment_metrics_summary.xlsx"
      (generate_excel recs (fetch_registered_models c)) ∧
    (generate_excel recs (fetch_registered_models c)).sheets.head? =
      some (Sheet.mk "Experiment Metrics" (dfColumns recs)
        (recs.map (dfRow (dfColumns recs)))) ∧
    (recs.map (dfRow (dfColumns recs))).length = recs.length ∧
    (∀ k ∈ dfColumns recs, k ∈ fixedKeys ∨ ∃ i, i < 12 ∧ k = gpuHistoryKey i) := by
  refine ⟨?_, ?_, ?_, ?_⟩
  · simp [main, hcfg, hne, hok, hnonempty]
  · unfold generate_excel
    split <;> rfl
  · simp
  · intro k hk
    obtain ⟨rec, hrecmem, hkmem⟩ := mem_of_dfColumns hk
    obtain ⟨e, r, hb⟩ := fetch_all_mem hok hrecmem
    rw [build_run_record_keys hb] at hkmem
    rcases List.mem_append.mp hkmem with h1 | h2
    · exact Or.inl h1
    · obtain ⟨i, hi, heq, _⟩ := gpu_keys_only h2
      exact Or.inr ⟨i, hi, heq⟩

/-- Witness for the amended C8 at `exClientA`: the sweep saves the fully
built workbook. -/
theorem C8_witness :
    main exEnv exClientA = Outcome.saved "experiment_metrics_summary.xlsx"
      (generate_excel [exRecA] (fetch_registered_models exClientA)) ∧
    (generate_excel [exRecA] (fetch_registered_models exClientA)).sheets.head? =
      some (Sheet.mk "Experiment Metrics" (dfColumns [exRecA])
        ([exRecA].map (dfRow (dfColumns [exRecA])))) :=
  ⟨(C8_amended_output_shape exEnv exClientA "http://mlflow.internal:5000" [exRecA]
      rfl (by decide) rfl (by decide)).1,
   (C8_amended_output_shape exEnv exClientA "http://mlflow.internal:5000" [exRecA]
      rfl (by decide) rfl (by decide)).2.1⟩

/-- C9: a sweep over zero experiments yields the empty record list, and an
empty record list makes the process report "no data" without writing any
file — and without raising. -/
theorem C9_empty_sweep_no_data (env : List (String × String)) (c : Client)
    (uri : String) (hcfg : getenv env "MLFLOW_TRACKING_URI" = some uri)
    (hne : uri ≠ "") :
    (c.experiments = [] → fetch_all_experiment_metrics c = Except.ok []) ∧
    (fetch_all_experiment_metrics c = Except.ok [] → main env c = Outcome.noData) := by
  constructor
  · intro h
    unfold fetch_all_experiment_metrics
    rw [h]
    rfl
  · intro h
    simp [main, hcfg, hne, h]

/-- Witness for C9 at a client with no experiments. -/
theorem C9_witness :
    fetch_all_experiment_metrics exClientEmpty = Except.ok [] ∧
    main exEnv exClientEmpty = Outcome.noData :=
  ⟨(C9_empty_sweep_no_data exEnv exClientEmpty "http://mlflow.internal:5000"
      rfl (by decide)).1 rfl,
   (C9_empty_sweep_no_data exEnv exClientEmpty "http://mlflow.internal:5000"
      rfl (by decide)).2 rfl⟩

/-- C10: when a run's end timestamp is present but equal to 0, the
truthiness test makes the Duration cell null while the End Time cell still
renders the epoch-zero date — the two columns disagree on whether the run
has ended. -/
theorem C10_zero_end_time_disagreement (c : Client) (e : Experiment) (r : Run)
    (rec : RunRecord) (hb : build_run_record c e r = Except.ok rec)
    (hend : r.end_time = some 0) :
    assocLookup rec "Duration (s)" = some CellValue.null ∧
    assocLookup rec "End Time" = some (CellValue.s (c.render_date 0)) := by
  obtain ⟨a, _, hrec⟩ := build_run_record_ok hb
  subst hrec
  constructor
  · rw [assocLookup_append_left (fixedRecord_lookup_duration c e r a)]
    simp [durationCell, hend]
  · rw [assocLookup_append_left (fixedRecord_lookup_end_time c e r a)]
    rw [hend]
    simp [human_readable_date, optCell]

/-- Witness for C10 at `exClientZ`: the run that ended at epoch 0 gets a
null Duration cell but a rendered End Time cell. -/
theorem C10_witness :
    assocLookup exRecZ "Duration (s)" = some CellValue.null ∧
    assocLookup exRecZ "End Time" = some (CellValue.s (exClientZ.render_date 0)) :=
  C10_zero_end_time_disagreement exClientZ (Experiment.mk "9" "exp-z") exRunZ
    exRecZ rfl rfl

end MlflowAudit
